import Mathlib

/-
Verification development for the AlarmMitra reminder bot
(src/reminder_bot1.py).  The Python source is shallowly embedded:

* instants produced by `parse_reminder` are modelled as `Nat` seconds
  since `datetime.min` (0001-01-01 00:00:00); Python datetimes are
  bounded at year 9999, so `dt += timedelta(...)` past `datetime.max`
  raises `OverflowError` — the constant `pyMaxInstant` is that bound,
  and since the addition happens inside the `except` block the error
  propagates out of `parse_reminder`, recorded by the `raises`
  constructor of `ParseOutcome`; the external `dateparser.parse`
  collaborator is a function parameter
  `dp : List Char -> Option Nat` (it returns in-range datetimes or
  `None`, performing no arithmetic), and the OpenAI semantic step is a
  parameter `sem : Option (List Char x List Char)` holding the structured
  `{time, message}` result when the whole service/JSON pipeline succeeded
  (`none` models any service error, timeout or malformed output);
* texts are `List Char`; Python string operations (`in`, `split`,
  `strip`, `lower`) are modelled character by character;
* the regex `in (\d+) (second|seconds|minute|minutes|hour|hours)` with
  `re.IGNORECASE` is modelled by `regexSearch` (leftmost match, greedy
  digit run, alternatives tried in order);
* the SQLite store is a list of rows plus the AUTOINCREMENT counter;
  `remind_time` is the strftime string `YYYY-MM-DD HH:MM:SS`, and the
  SQL comparison `remind_time <= ?` on TEXT columns is byte-wise
  lexicographic comparison, modelled by `lexLe`;
* `datetime.now()` in `get_due_reminders` is a `PyDateTime` (the civil
  tuple Python datetimes carry; Python compares datetimes by that tuple,
  which for in-range fields coincides with the `key` order used here);
* `await context.bot.send_message` is a parameter
  `deliver : Entry -> Bool`; a `false` result models the transport
  raising a `TelegramError`, which in the Python loop aborts the rest of
  the `for` body and of the batch (there is no try/except in
  `check_reminders`), so neither the failed reminder nor any later one
  in the same scan is deleted.
-/

set_option maxRecDepth 4000

namespace ReminderBot

/-! ## Python string primitives -/

/-- Characters removed by Python `str.strip()` (ASCII whitespace). -/
def isPySpace (c : Char) : Bool :=
  c == ' ' || c == '\t' || c == '\n' || c == '\r' || c == '\x0b' || c == '\x0c'

/-- Python `str.strip()`: drop whitespace from both ends. -/
def pyStrip (cs : List Char) : List Char :=
  ((cs.dropWhile isPySpace).reverse.dropWhile isPySpace).reverse

/-- Python substring test `pat in hay`. -/
def containsSeq (pat : List Char) : List Char → Bool
  | [] => pat.isEmpty
  | c :: rest => pat.isPrefixOf (c :: rest) || containsSeq pat rest

/-- Everything after the first occurrence of `pat`; models
`text.split(pat, 1)[-1]` when `pat` occurs in `text`. -/
def afterFirst (pat : List Char) : List Char → List Char
  | [] => []
  | c :: rest =>
    if pat.isPrefixOf (c :: rest) then (c :: rest).drop pat.length
    else afterFirst pat rest

/-- Case-insensitive "starts with", the effect of `re.IGNORECASE` on a
literal pattern fragment. -/
def ciStartsWith : List Char → List Char → Bool
  | [], _ => true
  | _ :: _, [] => false
  | p :: ps, c :: cs => (p.toLower == c.toLower) && ciStartsWith ps cs

/-- Value of a digit run, as `int(...)` computes it. -/
def natOfDigits (ds : List Char) : Nat :=
  ds.foldl (fun a c => 10 * a + (c.toNat - 48)) 0

/-! ## Byte-wise lexicographic string comparison (SQLite TEXT order) -/

/-- SQLite TEXT `<=` (memcmp order; these strings are ASCII). -/
def lexLe : List Char → List Char → Bool
  | [], _ => true
  | _ :: _, [] => false
  | a :: as, b :: bs =>
    if a < b then true else if a = b then lexLe as bs else false

/-- Strict version of `lexLe`. -/
def lexLt : List Char → List Char → Bool
  | [], [] => false
  | [], _ :: _ => true
  | _ :: _, [] => false
  | a :: as, b :: bs =>
    if a < b then true else if a = b then lexLt as bs else false

/-! ## Python datetimes and `strftime("%Y-%m-%d %H:%M:%S")` -/

/-- The civil tuple carried by a Python `datetime` (sub-second part is
irrelevant to the embedded code paths). -/
@[ext] structure PyDateTime where
  year : Nat
  month : Nat
  day : Nat
  hour : Nat
  minute : Nat
  second : Nat
deriving DecidableEq

/-- Field ranges of a real Python `datetime` (MINYEAR = 1,
MAXYEAR = 9999). -/
def PyDateTime.Valid (t : PyDateTime) : Prop :=
  1 ≤ t.year ∧ t.year ≤ 9999 ∧ 1 ≤ t.month ∧ t.month ≤ 12 ∧
  1 ≤ t.day ∧ t.day ≤ 31 ∧ t.hour ≤ 23 ∧ t.minute ≤ 59 ∧ t.second ≤ 59

instance (t : PyDateTime) : Decidable t.Valid := by
  unfold PyDateTime.Valid; infer_instance

/-- Order key; for valid datetimes this coincides with Python's
component-wise datetime comparison. -/
def PyDateTime.key (t : PyDateTime) : Nat :=
  ((((t.year * 100 + t.month) * 100 + t.day) * 100 + t.hour) * 100
      + t.minute) * 100 + t.second

/-- Decimal digit character. -/
def dch : Nat → Char
  | 0 => '0'
  | 1 => '1'
  | 2 => '2'
  | 3 => '3'
  | 4 => '4'
  | 5 => '5'
  | 6 => '6'
  | 7 => '7'
  | 8 => '8'
  | _ => '9'

/-- `%02d` for values below 100. -/
def pad2 (n : Nat) : List Char :=
  [dch (n / 10), dch (n % 10)]

/-- `%04d` for values below 10000. -/
def pad4 (n : Nat) : List Char :=
  pad2 (n / 100) ++ pad2 (n % 100)

/-- `dt.strftime("%Y-%m-%d %H:%M:%S")`, the format stored in the
`remind_time` column and used in the due query. -/
def strftimeDB (t : PyDateTime) : List Char :=
  pad4 t.year ++ '-' :: (pad2 t.month ++ '-' :: (pad2 t.day ++
    ' ' :: (pad2 t.hour ++ ':' :: (pad2 t.minute ++ ':' :: pad2 t.second))))

/-! ## parse_reminder -/

/-- The alternatives of the unit group, in the pattern's order. -/
def unitAlts : List (List Char) :=
  [("second").toList, ("seconds").toList, ("minute").toList,
   ("minutes").toList, ("hour").toList, ("hours").toList]

/-- Attempt of the regex `in (\d+) (second|seconds|minute|minutes|hour|hours)`
anchored at the head of `cs` (case-insensitive).  Returns
`(int(group(1)), group(2).lower())`. -/
def matchAt (cs : List Char) : Option (Nat × List Char) :=
  if ciStartsWith (("in ").toList) cs then
    match (cs.drop 3).takeWhile Char.isDigit,
        (cs.drop 3).drop ((cs.drop 3).takeWhile Char.isDigit).length with
    | [], _ => none
    | d :: ds, ' ' :: rest2 =>
      match unitAlts.find? (fun u => ciStartsWith u rest2) with
      | some u => some (natOfDigits (d :: ds), u)
      | none => none
    | _ :: _, _ => none
  else none

/-- `re.search`: leftmost position at which the pattern matches. -/
def regexSearch : List Char → Option (Nat × List Char)
  | [] => none
  | c :: rest =>
    match matchAt (c :: rest) with
    | some r => some r
    | none => regexSearch rest

/-- `text.split("to", 1)[-1].strip() if "to" in text else text`. -/
def regexFallbackMsg (text : List Char) : List Char :=
  if containsSeq (("to").toList) text then pyStrip (afterFirst (("to").toList) text)
  else text

/-- Python datetimes are bounded (`MINYEAR = 1`, `MAXYEAR = 9999`).
With instants as whole seconds since `datetime.min`
(0001-01-01 00:00:00), `datetime.max` (9999-12-31 23:59:59) lies
`3652058 * 86400 + 86399` seconds later; `dt += timedelta(...)` whose
result would lie past it raises `OverflowError` (as does constructing
an even larger `timedelta`). -/
def pyMaxInstant : Nat := 315537897599

/-- What a call of `parse_reminder` can do: return a parsed
`(dt, message)` pair, return `(None, None)`, or raise — the
`OverflowError` from the relative-offset arithmetic occurs inside the
`except` block, so nothing catches it and it propagates out of
`parse_reminder`. -/
inductive ParseOutcome where
  | ok : Nat → List Char → ParseOutcome
  | noparse : ParseOutcome
  | raises : ParseOutcome
deriving DecidableEq

/-- The two deterministic fallbacks of `parse_reminder` (the body of the
`except` clause): regex offset (whose `dt += timedelta(...)` raises
`OverflowError` past `datetime.max`, before the message line runs),
then `dateparser.parse` on the whole text, then failure `(None, None)`. -/
def parseFallback (dp : List Char → Option Nat) (now : Nat)
    (text : List Char) : ParseOutcome :=
  match regexSearch text with
  | some (value, unit) =>
    let dt :=
      if containsSeq (("second").toList) unit then now + value
      else if containsSeq (("minute").toList) unit then now + value * 60
      else if containsSeq (("hour").toList) unit then now + value * 3600
      else now
    if dt ≤ pyMaxInstant then ParseOutcome.ok dt (regexFallbackMsg text)
    else ParseOutcome.raises
  | none =>
    match dp text with
    | some dt => ParseOutcome.ok dt text
    | none => ParseOutcome.noparse

/-- `parse_reminder`: semantic step first (GPT structured output `sem`
parsed by `dp`), any failure of it falls through to the fallbacks. -/
def parse_reminder (sem : Option (List Char × List Char))
    (dp : List Char → Option Nat) (now : Nat) (text : List Char) :
    ParseOutcome :=
  match sem with
  | some (time, msg) =>
    match dp time with
    | some dt => ParseOutcome.ok dt msg
    | none => parseFallback dp now text
  | none => parseFallback dp now text

/-- The semantic extraction step fails: the service call / JSON pipeline
failed outright, or its time string is rejected by the date parser. -/
def SemFails (sem : Option (List Char × List Char))
    (dp : List Char → Option Nat) : Prop :=
  sem = none ∨ ∃ t m, sem = some (t, m) ∧ dp t = none

/-- Duration in seconds of one regex time unit, as the spec names them. -/
def unitSeconds (u : List Char) : Nat :=
  if u = ("second").toList ∨ u = ("seconds").toList then 1
  else if u = ("minute").toList ∨ u = ("minutes").toList then 60
  else if u = ("hour").toList ∨ u = ("hours").toList then 3600
  else 0

/-! ## The SQLite store -/

/-- One row of the `reminders` table. -/
structure Row where
  id : Nat
  chat_id : List Char
  message : List Char
  remind_time : List Char
deriving DecidableEq

/-- Store state: the rows plus the AUTOINCREMENT counter for `id`
(`AUTOINCREMENT` never reuses a value, even after deletes). -/
@[ext] structure DB where
  rows : List Row
  nextId : Nat
deriving DecidableEq

/-- `init_db`: empty table; AUTOINCREMENT starts handing out ids at 1. -/
def init_db : DB := ⟨[], 1⟩

/-- `add_reminder`: INSERT, with the generated id. -/
def add_reminder (chat msg time : List Char) (db : DB) : DB :=
  ⟨db.rows ++ [⟨db.nextId, chat, msg, time⟩], db.nextId + 1⟩

/-- A `(id, chat_id, message)` triple as returned by the due query. -/
abbrev Entry := Nat × List Char × List Char

/-- `get_due_reminders`:
`SELECT id, chat_id, message FROM reminders WHERE remind_time <= now`. -/
def get_due_reminders (now : PyDateTime) (db : DB) : List Entry :=
  (db.rows.filter (fun r => lexLe r.remind_time (strftimeDB now))).map
    (fun r => (r.id, r.chat_id, r.message))

/-- `delete_reminder`: `DELETE FROM reminders WHERE id = ?`. -/
def delete_reminder (i : Nat) (db : DB) : DB :=
  ⟨db.rows.filter (fun r => r.id != i), db.nextId⟩

/-! ## Bot handlers -/

/-- The outcome of `handle_reminder_request`, as observable at the chat
transport: the guidance reply, the confirmation reply, or no reply at
all because an exception propagated out of the handler before any reply
was sent. -/
inductive BotReply where
  | guidance : BotReply
  | confirmation : Nat → List Char → BotReply
  | raised : BotReply
deriving DecidableEq

/-- `handle_reminder_request`: parse; if the parse call raises, the
handler dies with it (no reply, nothing inserted); on `(None, None)`
reply with the guidance message and change nothing; on success insert
and confirm.  `fmt` is the strftime rendering of the parsed instant
into the stored string. -/
def handle_reminder_request (sem : Option (List Char × List Char))
    (dp : List Char → Option Nat) (now : Nat) (fmt : Nat → List Char)
    (chat text : List Char) (db : DB) : BotReply × DB :=
  match parse_reminder sem dp now text with
  | ParseOutcome.raises => (BotReply.raised, db)
  | ParseOutcome.noparse => (BotReply.guidance, db)
  | ParseOutcome.ok dt msg =>
    (BotReply.confirmation dt msg, add_reminder chat msg (fmt dt) db)

/-- `handle_text_reminder`: plain-text messages are handled only if the
lowered text contains "remind". -/
def handle_text_reminder (sem : Option (List Char × List Char))
    (dp : List Char → Option Nat) (now : Nat) (fmt : Nat → List Char)
    (chat text : List Char) (db : DB) : Option BotReply × DB :=
  if containsSeq (("remind").toList) (text.map Char.toLower) then
    let p := handle_reminder_request sem dp now fmt chat text db
    (some p.1, p.2)
  else (none, db)

/-! ## The scheduler scan -/

/-- The body of `check_reminders`: walk the due batch; each step awaits
`send_message` (`deliver`) and then deletes.  A failed send raises, so
the loop stops: the failed entry and all later entries are left
untouched.  The second component records the entries on which delivery
was actually attempted (i.e. `send_message` was called). -/
def dispatchLoop (deliver : Entry → Bool) :
    List Entry → DB → DB × List Entry
  | [], db => (db, [])
  | r :: rest, db =>
    if deliver r then
      ((dispatchLoop deliver rest (delete_reminder r.1 db)).1,
        r :: (dispatchLoop deliver rest (delete_reminder r.1 db)).2)
    else (db, [r])

/-- `check_reminders`: query the due batch once, then dispatch it. -/
def check_reminders (deliver : Entry → Bool) (now : PyDateTime) (db : DB) :
    DB × List Entry :=
  dispatchLoop deliver (get_due_reminders now db) db

/-! ## Store operation traces (for the id-assignment invariant) -/

/-- The store operations the bot performs. -/
inductive Op where
  | insert : List Char → List Char → List Char → Op
  | delete : Nat → Op

/-- Effect of one operation. -/
def applyOp : Op → DB → DB
  | Op.insert chat msg time, db => add_reminder chat msg time db
  | Op.delete i, db => delete_reminder i db

/-- Run a sequence of operations. -/
def runOps : List Op → DB → DB
  | [], db => db
  | op :: rest, db => runOps rest (applyOp op db)

/-- The ids the store hands out along a run, in order of assignment. -/
def assignedIds : List Op → DB → List Nat
  | [], _ => []
  | Op.insert chat msg time :: rest, db =>
    db.nextId :: assignedIds rest (applyOp (Op.insert chat msg time) db)
  | Op.delete i :: rest, db => assignedIds rest (applyOp (Op.delete i) db)

/-! ## Lexicographic comparison lemmas -/

theorem lexLe_cons {a b : Char} {as bs : List Char} :
    lexLe (a :: as) (b :: bs) = true ↔ a < b ∨ (a = b ∧ lexLe as bs = true) := by
  simp only [lexLe]
  split_ifs with h1 h2 <;> simp_all

theorem lexLt_cons {a b : Char} {as bs : List Char} :
    lexLt (a :: as) (b :: bs) = true ↔ a < b ∨ (a = b ∧ lexLt as bs = true) := by
  simp only [lexLt]
  split_ifs with h1 h2 <;> simp_all

theorem lexLe_refl : ∀ l : List Char, lexLe l l = true
  | [] => rfl
  | _ :: as => lexLe_cons.mpr (Or.inr ⟨rfl, lexLe_refl as⟩)

theorem lexLe_of_lexLt : ∀ {l₁ l₂ : List Char}, lexLt l₁ l₂ = true → lexLe l₁ l₂ = true
  | [], _, _ => rfl
  | _ :: _, [], h => by simp [lexLt] at h
  | a :: as, b :: bs, h => by
    rcases lexLt_cons.mp h with h' | ⟨rfl, h'⟩
    · exact lexLe_cons.mpr (Or.inl h')
    · exact lexLe_cons.mpr (Or.inr ⟨rfl, lexLe_of_lexLt h'⟩)

theorem lexLe_trans : ∀ {l₁ l₂ l₃ : List Char},
    lexLe l₁ l₂ = true → lexLe l₂ l₃ = true → lexLe l₁ l₃ = true
  | [], _, _, _, _ => rfl
  | _ :: _, [], _, h, _ => by simp [lexLe] at h
  | _ :: _, _ :: _, [], _, h => by simp [lexLe] at h
  | a :: as, b :: bs, c :: cs, h₁, h₂ => by
    rcases lexLe_cons.mp h₁ with hab | ⟨rfl, hab⟩ <;>
      rcases lexLe_cons.mp h₂ with hbc | ⟨rfl, hbc⟩
    · exact lexLe_cons.mpr (Or.inl (lt_trans hab hbc))
    · exact lexLe_cons.mpr (Or.inl hab)
    · exact lexLe_cons.mpr (Or.inl hbc)
    · exact lexLe_cons.mpr (Or.inr ⟨rfl, lexLe_trans hab hbc⟩)

theorem lexLt_cons_same {c : Char} {t₁ t₂ : List Char} (h : lexLt t₁ t₂ = true) :
    lexLt (c :: t₁) (c :: t₂) = true :=
  lexLt_cons.mpr (Or.inr ⟨rfl, h⟩)

theorem lexLt_append_left : ∀ {l₁ l₂ t₁ t₂ : List Char},
    l₁.length = l₂.length → lexLt l₁ l₂ = true →
    lexLt (l₁ ++ t₁) (l₂ ++ t₂) = true
  | [], [], _, _, _, h => by simp [lexLt] at h
  | [], _ :: _, _, _, hl, _ => by simp at hl
  | _ :: _, [], _, _, hl, _ => by simp at hl
  | a :: as, b :: bs, t₁, t₂, hl, h => by
    rcases lexLt_cons.mp h with h' | ⟨rfl, h'⟩
    · exact lexLt_cons.mpr (Or.inl h')
    · exact lexLt_cons_same (lexLt_append_left (by simpa using hl) h')

theorem lexLt_append_right : ∀ (l : List Char) {t₁ t₂ : List Char},
    lexLt t₁ t₂ = true → lexLt (l ++ t₁) (l ++ t₂) = true
  | [], _, _, h => h
  | _ :: cs, _, _, h => lexLt_cons_same (lexLt_append_right cs h)

/-! ## Digit and padding lemmas -/

theorem dch_lt_aux : ∀ x y : Fin 10, x.val < y.val → dch x.val < dch y.val := by decide

theorem dch_lt {m n : Nat} (h : m < n) (hn : n ≤ 9) : dch m < dch n :=
  dch_lt_aux ⟨m, by omega⟩ ⟨n, by omega⟩ h

theorem pad2_lt {m n : Nat} (h : m < n) (hn : n < 100) :
    lexLt (pad2 m) (pad2 n) = true := by
  rcases Nat.lt_or_ge (m / 10) (n / 10) with hd | hd
  · exact lexLt_cons.mpr (Or.inl (dch_lt hd (by omega)))
  · have hde : m / 10 = n / 10 := le_antisymm (Nat.div_le_div_right h.le) hd
    have hmod : m % 10 < n % 10 := by omega
    refine lexLt_cons.mpr (Or.inr ⟨congrArg dch hde, ?_⟩)
    exact lexLt_cons.mpr (Or.inl (dch_lt hmod (by omega)))

theorem pad4_lt {m n : Nat} (h : m < n) (hn : n < 10000) :
    lexLt (pad4 m) (pad4 n) = true := by
  rcases Nat.lt_or_ge (m / 100) (n / 100) with hd | hd
  · exact lexLt_append_left rfl (pad2_lt hd (by omega))
  · have hde : m / 100 = n / 100 := le_antisymm (Nat.div_le_div_right h.le) hd
    have hmod : m % 100 < n % 100 := by omega
    rw [pad4, pad4, hde]
    exact lexLt_append_right _ (pad2_lt hmod (by omega))

/-! ## Monotonicity of the stored timestamp format -/

theorem strftime_lt {a b : PyDateTime} (ha : a.Valid) (hb : b.Valid)
    (h : a.key < b.key) : lexLt (strftimeDB a) (strftimeDB b) = true := by
  obtain ⟨ha1, ha2, ha3, ha4, ha5, ha6, ha7, ha8, ha9⟩ := ha
  obtain ⟨hb1, hb2, hb3, hb4, hb5, hb6, hb7, hb8, hb9⟩ := hb
  simp only [PyDateTime.key] at h
  have hcases : a.year < b.year ∨ (a.year = b.year ∧ (a.month < b.month ∨
      (a.month = b.month ∧ (a.day < b.day ∨ (a.day = b.day ∧
      (a.hour < b.hour ∨ (a.hour = b.hour ∧ (a.minute < b.minute ∨
      (a.minute = b.minute ∧ a.second < b.second))))))))) := by omega
  unfold strftimeDB
  rcases hcases with hy | ⟨hy, hmo | ⟨hmo, hd | ⟨hd, hh | ⟨hh, hmi | ⟨hmi, hs⟩⟩⟩⟩⟩
  · exact lexLt_append_left rfl (pad4_lt hy (by omega))
  · rw [hy]
    exact lexLt_append_right _ (lexLt_cons_same
      (lexLt_append_left rfl (pad2_lt hmo (by omega))))
  · rw [hy, hmo]
    exact lexLt_append_right _ (lexLt_cons_same (lexLt_append_right _
      (lexLt_cons_same (lexLt_append_left rfl (pad2_lt hd (by omega))))))
  · rw [hy, hmo, hd]
    exact lexLt_append_right _ (lexLt_cons_same (lexLt_append_right _
      (lexLt_cons_same (lexLt_append_right _ (lexLt_cons_same
      (lexLt_append_left rfl (pad2_lt hh (by omega))))))))
  · rw [hy, hmo, hd, hh]
    exact lexLt_append_right _ (lexLt_cons_same (lexLt_append_right _
      (lexLt_cons_same (lexLt_append_right _ (lexLt_cons_same
      (lexLt_append_right _ (lexLt_cons_same
      (lexLt_append_left rfl (pad2_lt hmi (by omega))))))))))
  · rw [hy, hmo, hd, hh, hmi]
    exact lexLt_append_right _ (lexLt_cons_same (lexLt_append_right _
      (lexLt_cons_same (lexLt_append_right _ (lexLt_cons_same
      (lexLt_append_right _ (lexLt_cons_same (lexLt_append_right _
      (lexLt_cons_same (pad2_lt hs (by omega)))))))))))

theorem key_inj {a b : PyDateTime} (ha : a.Valid) (hb : b.Valid)
    (h : a.key = b.key) : a = b := by
  obtain ⟨ha1, ha2, ha3, ha4, ha5, ha6, ha7, ha8, ha9⟩ := ha
  obtain ⟨hb1, hb2, hb3, hb4, hb5, hb6, hb7, hb8, hb9⟩ := hb
  simp only [PyDateTime.key] at h
  ext <;> omega

theorem strftime_mono {a b : PyDateTime} (ha : a.Valid) (hb : b.Valid)
    (h : a.key ≤ b.key) : lexLe (strftimeDB a) (strftimeDB b) = true := by
  rcases Nat.lt_or_ge a.key b.key with hlt | hge
  · exact lexLe_of_lexLt (strftime_lt ha hb hlt)
  · rw [key_inj ha hb (le_antisymm h hge)]
    exact lexLe_refl _

/-! ## parse_reminder lemmas -/

theorem parse_reminder_of_semFails {sem : Option (List Char × List Char)}
    {dp : List Char → Option Nat} (h : SemFails sem dp) (now : Nat)
    (text : List Char) :
    parse_reminder sem dp now text = parseFallback dp now text := by
  rcases h with rfl | ⟨t, m, rfl, hdp⟩
  · rfl
  · simp [parse_reminder, hdp]

theorem matchAt_unit_mem {cs : List Char} {v : Nat} {u : List Char}
    (h : matchAt cs = some (v, u)) : u ∈ unitAlts := by
  unfold matchAt at h
  split at h
  · split at h
    · exact absurd h (by simp)
    · split at h
      · rename_i hfind
        simp only [Option.some.injEq, Prod.mk.injEq] at h
        rw [← h.2]
        exact List.mem_of_find?_eq_some hfind
      · exact absurd h (by simp)
    · exact absurd h (by simp)
  · exact absurd h (by simp)

theorem regexSearch_unit_mem : ∀ {cs : List Char} {v : Nat} {u : List Char},
    regexSearch cs = some (v, u) → u ∈ unitAlts
  | [], _, _, h => by simp [regexSearch] at h
  | c :: rest, v, u, h => by
    unfold regexSearch at h
    split at h
    · rename_i r hm
      cases h
      exact matchAt_unit_mem hm
    · exact regexSearch_unit_mem h

theorem parseFallback_regex_step {text : List Char} {v : Nat} {u : List Char}
    (dp : List Char → Option Nat) (now : Nat)
    (hre : regexSearch text = some (v, u)) :
    parseFallback dp now text =
      (if (if containsSeq (("second").toList) u then now + v
          else if containsSeq (("minute").toList) u then now + v * 60
          else if containsSeq (("hour").toList) u then now + v * 3600
          else now) ≤ pyMaxInstant then
        ParseOutcome.ok
          (if containsSeq (("second").toList) u then now + v
            else if containsSeq (("minute").toList) u then now + v * 60
            else if containsSeq (("hour").toList) u then now + v * 3600
            else now)
          (regexFallbackMsg text)
      else ParseOutcome.raises) := by
  unfold parseFallback
  rw [hre]

theorem parseFallback_of_regex {text : List Char} {v : Nat} {u : List Char}
    (dp : List Char → Option Nat) (now : Nat)
    (hre : regexSearch text = some (v, u)) :
    parseFallback dp now text
      = if now + v * unitSeconds u ≤ pyMaxInstant then
          ParseOutcome.ok (now + v * unitSeconds u) (regexFallbackMsg text)
        else ParseOutcome.raises := by
  have hu := regexSearch_unit_mem hre
  rw [parseFallback_regex_step dp now hre]
  unfold unitAlts at hu
  rcases List.mem_cons.mp hu with rfl | hu
  · rw [if_pos (by decide : containsSeq (("second").toList) (("second").toList) = true),
      (by decide : unitSeconds (("second").toList) = 1), Nat.mul_one]
  rcases List.mem_cons.mp hu with rfl | hu
  · rw [if_pos (by decide : containsSeq (("second").toList) (("seconds").toList) = true),
      (by decide : unitSeconds (("seconds").toList) = 1), Nat.mul_one]
  rcases List.mem_cons.mp hu with rfl | hu
  · rw [if_neg (by decide : ¬ containsSeq (("second").toList) (("minute").toList) = true),
      if_pos (by decide : containsSeq (("minute").toList) (("minute").toList) = true),
      (by decide : unitSeconds (("minute").toList) = 60)]
  rcases List.mem_cons.mp hu with rfl | hu
  · rw [if_neg (by decide : ¬ containsSeq (("second").toList) (("minutes").toList) = true),
      if_pos (by decide : containsSeq (("minute").toList) (("minutes").toList) = true),
      (by decide : unitSeconds (("minutes").toList) = 60)]
  rcases List.mem_cons.mp hu with rfl | hu
  · rw [if_neg (by decide : ¬ containsSeq (("second").toList) (("hour").toList) = true),
      if_neg (by decide : ¬ containsSeq (("minute").toList) (("hour").toList) = true),
      if_pos (by decide : containsSeq (("hour").toList) (("hour").toList) = true),
      (by decide : unitSeconds (("hour").toList) = 3600)]
  rcases List.mem_cons.mp hu with rfl | hu
  · rw [if_neg (by decide : ¬ containsSeq (("second").toList) (("hours").toList) = true),
      if_neg (by decide : ¬ containsSeq (("minute").toList) (("hours").toList) = true),
      if_pos (by decide : containsSeq (("hour").toList) (("hours").toList) = true),
      (by decide : unitSeconds (("hours").toList) = 3600)]
  exact absurd hu (List.not_mem_nil _)

/-! ## Store and scan lemmas -/

theorem mem_get_due {now : PyDateTime} {db : DB} {r : Entry} :
    r ∈ get_due_reminders now db ↔
      ∃ row, row ∈ db.rows ∧ lexLe row.remind_time (strftimeDB now) = true ∧
        r = (row.id, row.chat_id, row.message) := by
  simp only [get_due_reminders, List.mem_map, List.mem_filter]
  constructor
  · rintro ⟨row, ⟨hm, hd⟩, rfl⟩
    exact ⟨row, hm, hd, rfl⟩
  · rintro ⟨row, hm, hd, rfl⟩
    exact ⟨row, ⟨hm, hd⟩, rfl⟩

theorem mem_rows_delete {row : Row} {i : Nat} {db : DB}
    (hm : row ∈ db.rows) (hne : row.id ≠ i) :
    row ∈ (delete_reminder i db).rows :=
  List.mem_filter.mpr ⟨hm, bne_iff_ne.mpr hne⟩

theorem not_mem_rows_delete_self {row : Row} {db : DB}
    (h : row ∈ (delete_reminder row.id db).rows) : False := by
  have := List.of_mem_filter h
  rw [bne_self_eq_false] at this
  exact Bool.false_ne_true this

theorem dispatchLoop_mem_of_fail {deliver : Entry → Bool} {row : Row} :
    ∀ (batch : List Entry) (db : DB), row ∈ db.rows →
      deliver (row.id, row.chat_id, row.message) = false →
      (∀ r ∈ batch, r.1 = row.id → r = (row.id, row.chat_id, row.message)) →
      row ∈ (dispatchLoop deliver batch db).1.rows
  | [], _, hm, _, _ => hm
  | r :: rest, db, hm, hfail, hbatch => by
    unfold dispatchLoop
    split
    · rename_i hd
      have hne : row.id ≠ r.1 := by
        intro he
        rw [hbatch r (List.mem_cons_self r rest) he.symm, hfail] at hd
        exact Bool.false_ne_true hd
      exact dispatchLoop_mem_of_fail rest (delete_reminder r.1 db)
        (mem_rows_delete hm hne) hfail
        (fun r' hr' => hbatch r' (List.mem_cons_of_mem r hr'))
    · exact hm

theorem dispatchLoop_rows_sublist (deliver : Entry → Bool) :
    ∀ (batch : List Entry) (db : DB),
      (dispatchLoop deliver batch db).1.rows.Sublist db.rows
  | [], _ => List.Sublist.refl _
  | r :: rest, db => by
    unfold dispatchLoop
    split
    · exact (dispatchLoop_rows_sublist deliver rest
        (delete_reminder r.1 db)).trans (List.filter_sublist _)
    · exact List.Sublist.refl _

theorem dispatchLoop_trace_sublist (deliver : Entry → Bool) :
    ∀ (batch : List Entry) (db : DB),
      (dispatchLoop deliver batch db).2.Sublist batch
  | [], _ => List.Sublist.refl _
  | r :: rest, db => by
    unfold dispatchLoop
    split
    · exact (dispatchLoop_trace_sublist deliver rest (delete_reminder r.1 db)).cons₂ r
    · exact (List.nil_sublist rest).cons₂ r

theorem dispatchLoop_all_ack_trace {deliver : Entry → Bool} :
    ∀ {batch : List Entry} (db : DB), (∀ r ∈ batch, deliver r = true) →
      (dispatchLoop deliver batch db).2 = batch
  | [], _, _ => rfl
  | r :: rest, db, hack => by
    unfold dispatchLoop
    rw [if_pos (hack r (List.mem_cons_self r rest))]
    show r :: (dispatchLoop deliver rest (delete_reminder r.1 db)).2 = r :: rest
    rw [dispatchLoop_all_ack_trace (delete_reminder r.1 db)
      (fun r' h => hack r' (List.mem_cons_of_mem r h))]

theorem dispatchLoop_all_ack_deleted {deliver : Entry → Bool} {row : Row} :
    ∀ {batch : List Entry} (db : DB), (∀ r ∈ batch, deliver r = true) →
      row.id ∈ batch.map (fun r => r.1) →
      row ∉ (dispatchLoop deliver batch db).1.rows
  | [], _, _, hid => absurd hid (List.not_mem_nil _)
  | r :: rest, db, hack, hid => by
    unfold dispatchLoop
    rw [if_pos (hack r (List.mem_cons_self r rest))]
    rw [List.map_cons] at hid
    show row ∉ (dispatchLoop deliver rest (delete_reminder r.1 db)).1.rows
    rcases List.mem_cons.mp hid with he | hid'
    · intro hmem
      have hdel : row ∈ (delete_reminder r.1 db).rows :=
        (dispatchLoop_rows_sublist deliver rest (delete_reminder r.1 db)).subset hmem
      rw [← he] at hdel
      exact not_mem_rows_delete_self hdel
    · exact dispatchLoop_all_ack_deleted (delete_reminder r.1 db)
        (fun r' h => hack r' (List.mem_cons_of_mem r h)) hid'

/-! ## Id-assignment lemmas -/

/-- The store invariant: every stored id is below the AUTOINCREMENT
counter, and stored ids are pairwise distinct. -/
def GoodDB (db : DB) : Prop :=
  (∀ row ∈ db.rows, row.id < db.nextId) ∧ (db.rows.map Row.id).Nodup

theorem goodDB_init : GoodDB init_db :=
  ⟨fun _ h => absurd h (List.not_mem_nil _), List.nodup_nil⟩

theorem goodDB_applyOp {db : DB} (h : GoodDB db) (op : Op) :
    GoodDB (applyOp op db) := by
  obtain ⟨hlt, hnd⟩ := h
  cases op with
  | insert chat msg time =>
    constructor
    · intro row hr
      rcases List.mem_append.mp hr with hr | hr
      · exact Nat.lt_succ_of_lt (hlt row hr)
      · rw [List.mem_singleton.mp hr]
        exact Nat.lt_succ_self _
    · simp only [applyOp, add_reminder]
      rw [List.map_append, List.map_cons, List.map_nil]
      refine List.Nodup.append hnd (List.nodup_singleton _) ?_
      intro a ha hb
      have hae := List.mem_singleton.mp hb
      subst hae
      obtain ⟨row, hrow, hid⟩ := List.mem_map.mp ha
      exact absurd hid (Nat.ne_of_lt (hlt row hrow))
  | delete i =>
    constructor
    · intro row hr
      exact hlt row (List.mem_of_mem_filter hr)
    · exact List.Nodup.sublist ((List.filter_sublist _).map _) hnd

theorem goodDB_runOps : ∀ (ops : List Op) (db : DB), GoodDB db →
    GoodDB (runOps ops db)
  | [], _, h => h
  | op :: rest, db, h => goodDB_runOps rest (applyOp op db) (goodDB_applyOp h op)

theorem assigned_ge : ∀ (ops : List Op) (db : DB), ∀ x ∈ assignedIds ops db,
    db.nextId ≤ x
  | [], _, _, hx => absurd hx (List.not_mem_nil _)
  | Op.insert c m t :: rest, db, x, hx => by
    rcases List.mem_cons.mp hx with rfl | hx
    · exact le_refl _
    · exact le_trans (Nat.le_succ _)
        (assigned_ge rest (applyOp (Op.insert c m t) db) x hx)
  | Op.delete i :: rest, db, x, hx =>
    assigned_ge rest (applyOp (Op.delete i) db) x hx

theorem assigned_pairwise : ∀ (ops : List Op) (db : DB),
    (assignedIds ops db).Pairwise (· < ·)
  | [], _ => List.Pairwise.nil
  | Op.insert c m t :: rest, db => by
    refine List.Pairwise.cons ?_ (assigned_pairwise rest _)
    intro x hx
    have h1 := assigned_ge rest (applyOp (Op.insert c m t) db) x hx
    have h2 : (applyOp (Op.insert c m t) db).nextId = db.nextId + 1 := rfl
    omega
  | Op.delete i :: rest, db => assigned_pairwise rest _

/-! ## Claims -/

/-- C1 counterexample: on "in 100000000 hours to x" the regex matches and
the text contains "to", the semantic step fails, yet extraction does
not succeed: the offset pushes the instant past `datetime.max`
(`100000000 * 3600 > pyMaxInstant`), so the addition raises
`OverflowError` instead of producing a `(due_instant, message)` pair. -/
theorem claim_C1_counterexample :
    regexSearch (("in 100000000 hours to x").toList)
        = some (100000000, ("hour").toList) ∧
    containsSeq (("to").toList) (("in 100000000 hours to x").toList) = true ∧
    parse_reminder none (fun _ => none) 0 (("in 100000000 hours to x").toList)
        = ParseOutcome.raises := by
  decide

/-- C1 amended: for every text on which the relative-offset regex finds
`in <N> <unit>` and which contains "to", whenever the semantic step
fails, extraction succeeds with due instant = call time + N times the
unit duration and message = the trimmed text after the first occurrence
of "to", provided that instant does not exceed `datetime.max` (year
9999) — past it the arithmetic raises `OverflowError` and extraction
does not succeed.  The semantic step's result is not used. -/
theorem claim_C1 (sem : Option (List Char × List Char))
    (dp : List Char → Option Nat) (now v : Nat) (text u : List Char)
    (hsem : SemFails sem dp) (hre : regexSearch text = some (v, u))
    (hto : containsSeq (("to").toList) text = true)
    (hbound : now + v * unitSeconds u ≤ pyMaxInstant) :
    parse_reminder sem dp now text
      = ParseOutcome.ok (now + v * unitSeconds u)
          (pyStrip (afterFirst (("to").toList) text)) := by
  rw [parse_reminder_of_semFails hsem now text, parseFallback_of_regex dp now hre,
    if_pos hbound]
  unfold regexFallbackMsg
  rw [if_pos hto]

/-- Witness for C1: "remind me in 10 seconds to drink water" at call
time 1000 with the semantic step failing. -/
theorem claim_C1_witness :
    parse_reminder none (fun _ => none) 1000
        (("remind me in 10 seconds to drink water").toList)
      = ParseOutcome.ok (1000 + 10 * unitSeconds (("second").toList))
          (pyStrip (afterFirst (("to").toList)
            (("remind me in 10 seconds to drink water").toList))) :=
  claim_C1 none (fun _ => none) 1000 10
    (("remind me in 10 seconds to drink water").toList) (("second").toList)
    (Or.inl rfl) (by decide) (by decide) (by decide)

/-- C2: whenever the relative-offset regex fallback succeeds (the
semantic step failed, the regex matched, and the call returned a
parsed pair), the extracted message is the trimmed text after the
first occurrence of "to" when "to" occurs in the text, and the full
original text otherwise. -/
theorem claim_C2 (sem : Option (List Char × List Char))
    (dp : List Char → Option Nat) (now v dt : Nat) (text u msg : List Char)
    (hsem : SemFails sem dp) (hre : regexSearch text = some (v, u))
    (hok : parse_reminder sem dp now text = ParseOutcome.ok dt msg) :
    msg = if containsSeq (("to").toList) text
      then pyStrip (afterFirst (("to").toList) text) else text := by
  rw [parse_reminder_of_semFails hsem now text,
    parseFallback_of_regex dp now hre] at hok
  by_cases hb : now + v * unitSeconds u ≤ pyMaxInstant
  · rw [if_pos hb] at hok
    injection hok with h1 h2
    rw [← h2]
    rfl
  · rw [if_neg hb] at hok
    exact ParseOutcome.noConfusion hok

/-- Witness for C2 on a successful fallback extraction from a text with
no occurrence of "to": the message is the full original text. -/
theorem claim_C2_witness :
    ("in 5 minutes call mom").toList
      = if containsSeq (("to").toList) (("in 5 minutes call mom").toList)
          then pyStrip (afterFirst (("to").toList)
            (("in 5 minutes call mom").toList))
          else ("in 5 minutes call mom").toList :=
  claim_C2 none (fun _ => none) 7 5 307 (("in 5 minutes call mom").toList)
    (("minute").toList) (("in 5 minutes call mom").toList)
    (Or.inl rfl) (by decide) (by decide)

/-- C3: when all three strategies fail (semantic step fails, no regex
match, date parser yields null), extraction returns the failure value,
the handler replies with the guidance message, and the store is
unchanged. -/
theorem claim_C3 (sem : Option (List Char × List Char))
    (dp : List Char → Option Nat) (now : Nat) (fmt : Nat → List Char)
    (chat text : List Char) (db : DB)
    (hsem : SemFails sem dp) (hre : regexSearch text = none)
    (hdp : dp text = none) :
    parse_reminder sem dp now text = ParseOutcome.noparse ∧
    handle_reminder_request sem dp now fmt chat text db
      = (BotReply.guidance, db) := by
  have hp : parse_reminder sem dp now text = ParseOutcome.noparse := by
    rw [parse_reminder_of_semFails hsem now text]
    unfold parseFallback
    rw [hre, hdp]
  refine ⟨hp, ?_⟩
  unfold handle_reminder_request
  rw [hp]

/-- Witness for C3: the text "asdkjasd" with a failing semantic step and
a date parser that always yields null. -/
theorem claim_C3_witness :
    parse_reminder none (fun _ => none) 0 (("asdkjasd").toList)
        = ParseOutcome.noparse ∧
    handle_reminder_request none (fun _ => none) 0 (fun _ => [])
        (("c").toList) (("asdkjasd").toList) init_db
      = (BotReply.guidance, init_db) :=
  claim_C3 none (fun _ => none) 0 (fun _ => []) (("c").toList)
    (("asdkjasd").toList) init_db (Or.inl rfl) (by decide) rfl

/-- C4: a due reminder whose delivery fails is not deleted by the scan:
it stays in the store and reappears in the next due query with
identical destination, message and due instant.  (Distinctness of
stored ids is the store's PRIMARY KEY invariant, established by
claim C9's `GoodDB`.) -/
theorem claim_C4 (deliver : Entry → Bool) (now : PyDateTime) (db : DB)
    (row : Row) (hnd : (db.rows.map Row.id).Nodup) (hmem : row ∈ db.rows)
    (hdue : lexLe row.remind_time (strftimeDB now) = true)
    (hfail : deliver (row.id, row.chat_id, row.message) = false) :
    row ∈ (check_reminders deliver now db).1.rows ∧
    (row.id, row.chat_id, row.message)
      ∈ get_due_reminders now (check_reminders deliver now db).1 := by
  have hbatch : ∀ r ∈ get_due_reminders now db, r.1 = row.id →
      r = (row.id, row.chat_id, row.message) := by
    intro r hr he
    obtain ⟨row', hm', _, rfl⟩ := mem_get_due.mp hr
    rw [List.inj_on_of_nodup_map hnd hm' hmem he]
  have h1 : row ∈ (check_reminders deliver now db).1.rows :=
    dispatchLoop_mem_of_fail (get_due_reminders now db) db hmem hfail hbatch
  exact ⟨h1, mem_get_due.mpr ⟨row, h1, hdue, rfl⟩⟩

/-- Witness for C4: one due reminder, delivery always failing. -/
theorem claim_C4_witness :
    (⟨1, ("c").toList, ("m").toList, ("2020-01-01 00:00:00").toList⟩ : Row)
      ∈ (check_reminders (fun _ => false) ⟨2024, 1, 1, 0, 0, 0⟩
          ⟨[⟨1, ("c").toList, ("m").toList,
            ("2020-01-01 00:00:00").toList⟩], 2⟩).1.rows ∧
    ((1 : Nat), ("c").toList, ("m").toList)
      ∈ get_due_reminders ⟨2024, 1, 1, 0, 0, 0⟩
          (check_reminders (fun _ => false) ⟨2024, 1, 1, 0, 0, 0⟩
            ⟨[⟨1, ("c").toList, ("m").toList,
              ("2020-01-01 00:00:00").toList⟩], 2⟩).1 :=
  claim_C4 (fun _ => false) ⟨2024, 1, 1, 0, 0, 0⟩
    ⟨[⟨1, ("c").toList, ("m").toList, ("2020-01-01 00:00:00").toList⟩], 2⟩
    ⟨1, ("c").toList, ("m").toList, ("2020-01-01 00:00:00").toList⟩
    (by decide) (by decide) (by decide) rfl

/-- C5 counterexample: two reminders are due in the same scan; delivery
of the first fails (the send raises), so the loop aborts and the second
due reminder receives zero delivery attempts in that scan — not
"exactly once" as claimed. -/
theorem claim_C5_counterexample :
    ((2 : Nat), ("c2").toList, ("m2").toList)
      ∈ get_due_reminders ⟨2024, 1, 1, 0, 0, 0⟩
        ⟨[⟨1, ("c1").toList, ("m1").toList, ("2020-01-01 00:00:00").toList⟩,
          ⟨2, ("c2").toList, ("m2").toList,
            ("2020-01-01 00:00:00").toList⟩], 3⟩ ∧
    ((check_reminders (fun r => r.1 != 1) ⟨2024, 1, 1, 0, 0, 0⟩
        ⟨[⟨1, ("c1").toList, ("m1").toList, ("2020-01-01 00:00:00").toList⟩,
          ⟨2, ("c2").toList, ("m2").toList,
            ("2020-01-01 00:00:00").toList⟩], 3⟩).2.count
      ((2 : Nat), ("c2").toList, ("m2").toList)) = 0 := by
  decide

/-- C5 amended: in every scan — whether or not some delivery fails —
each reminder returned by the due query is attempted at most once; and
when every delivery of the scan is acknowledged, each due reminder is
attempted exactly once (the attempt trace is exactly the due batch) and
every due reminder is deleted from the store — in particular two
reminders due at the same instant are both returned by the one due
query and both absent afterwards. -/
theorem claim_C5_amended (deliver : Entry → Bool) (now : PyDateTime)
    (db : DB) :
    (∀ e : Entry, ((check_reminders deliver now db).2.count e)
        ≤ ((get_due_reminders now db).count e)) ∧
    ((∀ r ∈ get_due_reminders now db, deliver r = true) →
      (check_reminders deliver now db).2 = get_due_reminders now db ∧
      (∀ row ∈ db.rows, lexLe row.remind_time (strftimeDB now) = true →
        row ∉ (check_reminders deliver now db).1.rows)) := by
  refine ⟨?_, fun hack => ⟨?_, ?_⟩⟩
  · intro e
    exact (dispatchLoop_trace_sublist deliver
      (get_due_reminders now db) db).count_le e
  · exact dispatchLoop_all_ack_trace db hack
  · intro row hm hdue
    apply dispatchLoop_all_ack_deleted db hack
    exact List.mem_map_of_mem (fun r => r.1)
      (mem_get_due.mpr ⟨row, hm, hdue, rfl⟩)

/-- Witness for the amended C5 on two reminders due at the same
instant: the at-most-once bound instantiated at a scan whose first
delivery fails, and the exactly-once-and-deleted part at a scan whose
deliveries are all acknowledged. -/
theorem claim_C5_amended_witness :
    (∀ e : Entry, ((check_reminders (fun r => r.1 != 1) ⟨2024, 1, 1, 0, 0, 0⟩
        ⟨[⟨1, ("c1").toList, ("m1").toList, ("2020-01-01 00:00:00").toList⟩,
          ⟨2, ("c2").toList, ("m2").toList,
            ("2020-01-01 00:00:00").toList⟩], 3⟩).2.count e)
      ≤ ((get_due_reminders ⟨2024, 1, 1, 0, 0, 0⟩
        ⟨[⟨1, ("c1").toList, ("m1").toList, ("2020-01-01 00:00:00").toList⟩,
          ⟨2, ("c2").toList, ("m2").toList,
            ("2020-01-01 00:00:00").toList⟩], 3⟩).count e)) ∧
    ((check_reminders (fun _ => true) ⟨2024, 1, 1, 0, 0, 0⟩
        ⟨[⟨1, ("c1").toList, ("m1").toList, ("2020-01-01 00:00:00").toList⟩,
          ⟨2, ("c2").toList, ("m2").toList,
            ("2020-01-01 00:00:00").toList⟩], 3⟩).2
      = get_due_reminders ⟨2024, 1, 1, 0, 0, 0⟩
        ⟨[⟨1, ("c1").toList, ("m1").toList, ("2020-01-01 00:00:00").toList⟩,
          ⟨2, ("c2").toList, ("m2").toList,
            ("2020-01-01 00:00:00").toList⟩], 3⟩ ∧
    (∀ row ∈ (⟨[⟨1, ("c1").toList, ("m1").toList,
            ("2020-01-01 00:00:00").toList⟩,
          ⟨2, ("c2").toList, ("m2").toList,
            ("2020-01-01 00:00:00").toList⟩], 3⟩ : DB).rows,
      lexLe row.remind_time (strftimeDB ⟨2024, 1, 1, 0, 0, 0⟩) = true →
      row ∉ (check_reminders (fun _ => true) ⟨2024, 1, 1, 0, 0, 0⟩
        ⟨[⟨1, ("c1").toList, ("m1").toList, ("2020-01-01 00:00:00").toList⟩,
          ⟨2, ("c2").toList, ("m2").toList,
            ("2020-01-01 00:00:00").toList⟩], 3⟩).1.rows)) :=
  ⟨(claim_C5_amended (fun r => r.1 != 1) ⟨2024, 1, 1, 0, 0, 0⟩
      ⟨[⟨1, ("c1").toList, ("m1").toList, ("2020-01-01 00:00:00").toList⟩,
        ⟨2, ("c2").toList, ("m2").toList,
          ("2020-01-01 00:00:00").toList⟩], 3⟩).1,
    (claim_C5_amended (fun _ => true) ⟨2024, 1, 1, 0, 0, 0⟩
      ⟨[⟨1, ("c1").toList, ("m1").toList, ("2020-01-01 00:00:00").toList⟩,
        ⟨2, ("c2").toList, ("m2").toList,
          ("2020-01-01 00:00:00").toList⟩], 3⟩).2 (fun _ _ => rfl)⟩

/-- C6: the due query returns exactly the projections of the rows whose
stored `YYYY-MM-DD HH:MM:SS` string is lexicographically at most the
formatted current instant. -/
theorem claim_C6 (db : DB) (now : PyDateTime) (r : Entry) :
    r ∈ get_due_reminders now db ↔
      ∃ row, row ∈ db.rows ∧ lexLe row.remind_time (strftimeDB now) = true ∧
        r = (row.id, row.chat_id, row.message) :=
  mem_get_due

/-- C7: eligibility is monotone — if the due query at `now` returns a
reminder and the store is unchanged, the due query at any later valid
instant returns it too. -/
theorem claim_C7 (db : DB) (now now' : PyDateTime) (r : Entry)
    (hva : now.Valid) (hvb : now'.Valid) (hlt : now.key < now'.key)
    (hmem : r ∈ get_due_reminders now db) :
    r ∈ get_due_reminders now' db := by
  obtain ⟨row, hm, hd, rfl⟩ := mem_get_due.mp hmem
  exact mem_get_due.mpr ⟨row, hm,
    lexLe_trans hd (strftime_mono hva hvb (le_of_lt hlt)), rfl⟩

/-- Witness for C7: a reminder due at midnight 2024-01-01 is still due
five seconds later. -/
theorem claim_C7_witness :
    ((1 : Nat), ("c").toList, ("m").toList)
      ∈ get_due_reminders ⟨2024, 1, 1, 0, 0, 5⟩
        ⟨[⟨1, ("c").toList, ("m").toList,
          ("2024-01-01 00:00:00").toList⟩], 2⟩ :=
  claim_C7 ⟨[⟨1, ("c").toList, ("m").toList,
      ("2024-01-01 00:00:00").toList⟩], 2⟩
    ⟨2024, 1, 1, 0, 0, 0⟩ ⟨2024, 1, 1, 0, 0, 5⟩
    (1, ("c").toList, ("m").toList)
    (by decide) (by decide) (by decide) (by decide)

/-- C8: delete is idempotent — deleting twice equals deleting once, and
deleting an id not present in the store is a no-op, not an error. -/
theorem claim_C8 (db : DB) (i : Nat) :
    delete_reminder i (delete_reminder i db) = delete_reminder i db ∧
    ((∀ row ∈ db.rows, row.id ≠ i) → delete_reminder i db = db) := by
  constructor
  · apply DB.ext
    · simp only [delete_reminder]
      rw [List.filter_filter]
      exact List.filter_congr (fun a _ => Bool.and_self _)
    · rfl
  · intro h
    apply DB.ext
    · simp only [delete_reminder]
      exact List.filter_eq_self.mpr (fun row hr => bne_iff_ne.mpr (h row hr))
    · rfl

/-- Witness for C8 at a store holding only id 1, deleting id 5. -/
theorem claim_C8_witness :
    delete_reminder 5 (delete_reminder 5 ⟨[⟨1, [], [], []⟩], 2⟩)
        = delete_reminder 5 ⟨[⟨1, [], [], []⟩], 2⟩ ∧
    delete_reminder 5 (⟨[⟨1, [], [], []⟩], 2⟩ : DB)
        = ⟨[⟨1, [], [], []⟩], 2⟩ :=
  ⟨(claim_C8 ⟨[⟨1, [], [], []⟩], 2⟩ 5).1,
    (claim_C8 ⟨[⟨1, [], [], []⟩], 2⟩ 5).2 (by decide)⟩

/-- C9: along any sequence of store operations from the fresh store, the
assigned ids are strictly increasing in order of assignment (hence
unique, and an id deleted earlier is never assigned again), the ids in
the store are pairwise distinct, and every stored id is below the next
id to be assigned (so every insert is fresh). -/
theorem claim_C9 (ops : List Op) :
    (assignedIds ops init_db).Pairwise (· < ·) ∧
    ((runOps ops init_db).rows.map Row.id).Nodup ∧
    (∀ row ∈ (runOps ops init_db).rows,
      row.id < (runOps ops init_db).nextId) :=
  ⟨assigned_pairwise ops init_db,
    (goodDB_runOps ops init_db goodDB_init).2,
    (goodDB_runOps ops init_db goodDB_init).1⟩

/-- C10: a plain-text message whose lowered text does not contain
"remind" produces no reply and leaves the store unchanged. -/
theorem claim_C10 (sem : Option (List Char × List Char))
    (dp : List Char → Option Nat) (now : Nat) (fmt : Nat → List Char)
    (chat text : List Char) (db : DB)
    (h : containsSeq (("remind").toList) (text.map Char.toLower) = false) :
    handle_text_reminder sem dp now fmt chat text db = (none, db) := by
  unfold handle_text_reminder
  rw [h]
  rfl

/-- Witness for C10 on the text "hello there". -/
theorem claim_C10_witness :
    handle_text_reminder none (fun _ => none) 0 (fun _ => [])
        (("c").toList) (("hello there").toList) init_db
      = (none, init_db) :=
  claim_C10 none (fun _ => none) 0 (fun _ => []) (("c").toList)
    (("hello there").toList) init_db (by decide)

end ReminderBot
